import Mathlib

/-!
Verification development for the MindEase mental-health backend
(Python repository: FastAPI app, fusion/text/audio inference services,
MongoDB user/session models, in-memory storage service).

Scores and weights are embedded as rationals (`ℚ`).  Python's binary
floats differ from exact rationals only below 10⁻¹⁵, far smaller than
any gap that the bucket thresholds or the 3-decimal rounding used by
this code can observe, so `ℚ` is a faithful model of every comparison
the code performs.
-/

namespace MindEase

/-! ## Risk bucketing

Each site in the code inlines its own copy of the threshold chain; each
copy is embedded as its own definition so that their agreement is a
theorem rather than an artifact of sharing. -/

/-- `app.py`, `categorize_risk` (lines 147-154). -/
def categorize_risk (score : ℚ) : String :=
  if score < 33/100 then "Low"
  else if score < 66/100 then "Moderate"
  else "High"

/-- `services/fusion.py`, the inline bucketing of `final_score` in
`aggregate_daily_scores` (lines 79-84). -/
def fusionBucket (final_score : ℚ) : String :=
  if final_score < 33/100 then "Low"
  else if final_score < 66/100 then "Moderate"
  else "High"

/-- `services/text_infer.py`, the inline bucketing in `analyze_text`
(lines 125-130). -/
def textBucket (score : ℚ) : String :=
  if score < 33/100 then "Low"
  else if score < 66/100 then "Moderate"
  else "High"

/-- `services/text_infer.py`, the inline bucketing in
`_analyze_text_keyword_fallback` (lines 211-219), bucket component. -/
def textFallbackBucket (score : ℚ) : String :=
  if score < 33/100 then "Low"
  else if score < 66/100 then "Moderate"
  else "High"

/-- `services/text_infer.py`, `_analyze_text_keyword_fallback`
(lines 211-219), sentiment component of the same threshold chain. -/
def textFallbackSentiment (score : ℚ) : String :=
  if score < 33/100 then "Positive/Neutral"
  else if score < 66/100 then "Mixed/Concerning"
  else "Negative/High Concern"

/-- `services/audio_infer.py`, the inline bucketing in `analyze_audio`
(lines 255-260). -/
def audioBucket (score : ℚ) : String :=
  if score < 33/100 then "Low"
  else if score < 66/100 then "Moderate"
  else "High"

/-- `services/audio_infer.py`, the inline bucketing in
`_analyze_audio_fallback` (lines 310-315). -/
def audioFallbackBucket (score : ℚ) : String :=
  if score < 33/100 then "Low"
  else if score < 66/100 then "Moderate"
  else "High"

/-! ## Rounding -/

/-- Python's `round(x, 3)`: round to the nearest multiple of 1/1000.
CPython rounds ties to even on binary doubles; `round` here rounds ties
up.  The two can differ only on an exact tie (an odd multiple of
1/2000), and both stay within 1/2000 of the argument, which is the only
property the claims use. -/
def round3 (q : ℚ) : ℚ := (round (q * 1000) : ℚ) / 1000

/-! ## Fusion service (`services/fusion.py`) -/

/-- `DEFAULT_WEIGHTS` (fusion.py lines 10-14). -/
structure Weights where
  text : ℚ
  audio : ℚ
  image : ℚ
deriving DecidableEq

def DEFAULT_WEIGHTS : Weights := ⟨5/10, 25/100, 25/100⟩

/-- One per-modality analysis result dictionary, restricted to the keys
the fusion service reads:
* `score`: `a.get("score", 0.5)` in `_average_scores`;
* `dominant_themes`: `a.get("explain", {}).get("dominant_themes", [])`
  in `_generate_suggestions`;
* `dominant_emotion`: `a["explain"].get("dominant_emotion")` in
  `_generate_explanation` (audio);
* `top_emotions`: `img.get("top_emotions", {}).keys()` in
  `_generate_explanation` (image). -/
structure Analysis where
  score : Option ℚ
  dominant_themes : List String
  dominant_emotion : Option String
  top_emotions : List String
deriving DecidableEq

/-- `_average_scores` (fusion.py lines 112-117). -/
def _average_scores (analyses : List Analysis) : Option ℚ :=
  if analyses.isEmpty then none
  else some ((analyses.map (fun a => a.score.getD (5/10))).sum / analyses.length)

structure ModalityScores where
  text : Option ℚ
  audio : Option ℚ
  image : Option ℚ
deriving DecidableEq

structure FusionResult where
  final_score : ℚ
  bucket : String
  modality_scores : ModalityScores
  explanation : String
  suggestions : List String
deriving DecidableEq

/-- `_no_data_response` (fusion.py lines 120-132). -/
def _no_data_response : FusionResult :=
  { final_score := 5/10
    bucket := "Moderate"
    modality_scores := ⟨none, none, none⟩
    explanation := "No analysis data available for this day."
    suggestions := ["Please log your daily text, audio, or image entries."] }

/-- `_generate_explanation` (fusion.py lines 135-183).  The
`", ".join(set(dominant_emotions))` over a Python set is modelled as a
first-occurrence deduplication of the emotion list (set iteration order
is unspecified in the source); a missing `dominant_emotion` key, which
would make the Python join raise, is rendered as the literal `"None"`.
No claim depends on this string. -/
def _generate_explanation (text_score audio_score image_score : Option ℚ)
    (text_analyses audio_analyses image_analyses : List Analysis)
    (bucket : String) : String :=
  let overall : String :=
    if bucket = "Low" then
      "Your overall mental health indicators suggest a positive state."
    else if bucket = "Moderate" then
      "Your indicators show some signs of stress or mood changes."
    else
      "Multiple indicators suggest elevated stress or concerning patterns."
  let textPart : List String :=
    match text_score with
    | none => []
    | some ts =>
      if text_analyses.isEmpty then []
      else if ts > 66/100 then
        ["Your text entries contain concerning language patterns."]
      else if ts > 33/100 then
        ["Your text shows mixed emotional indicators."]
      else
        ["Your text entries reflect generally positive sentiment."]
  let audioPart : List String :=
    match audio_score with
    | none => []
    | some _ =>
      if audio_analyses.isEmpty then []
      else
        let dominant_emotions := audio_analyses.map (fun a => a.dominant_emotion)
        if dominant_emotions.contains (some "sad")
            || dominant_emotions.contains (some "angry")
            || dominant_emotions.contains (some "fear") then
          ["Voice analysis detected emotions like " ++
            String.intercalate ", "
              ((dominant_emotions.map (fun e => e.getD "None")).dedup) ++ "."]
        else
          ["Voice analysis shows neutral or positive emotional tone."]
  let imagePart : List String :=
    match image_score with
    | none => []
    | some _ =>
      if image_analyses.isEmpty then []
      else
        let facial_emotions := (image_analyses.map (fun i => i.top_emotions)).flatten
        if facial_emotions.contains "sad" || facial_emotions.contains "angry" then
          ["Facial expressions show some negative emotions."]
        else
          ["Facial expressions appear relatively neutral or positive."]
  String.intercalate " " ([overall] ++ textPart ++ audioPart ++ imagePart)

/-- `_generate_suggestions` (fusion.py lines 186-242). -/
def _generate_suggestions (final_score : ℚ) (bucket : String)
    (text_analyses _audio_analyses _image_analyses : List Analysis) :
    List String :=
  let themes : List String :=
    if text_analyses.isEmpty then []
    else (text_analyses.map (fun a => a.dominant_themes)).flatten
  let s : List String := []
  let s := if themes.contains "sleep_issues" then
    s ++ ["Consider establishing a regular sleep schedule and bedtime routine.",
          "Try limiting screen time 1 hour before bed."] else s
  let s := if themes.contains "anxiety" || final_score > 6/10 then
    s ++ ["Practice deep breathing exercises (4-7-8 technique).",
          "Consider mindfulness or meditation apps (Headspace, Calm)."] else s
  let s := if themes.contains "low_mood" || bucket = "High" then
    s ++ ["Engage in physical activity - even a 10-minute walk can help.",
          "Connect with friends or loved ones."] else s
  let s := if themes.contains "isolation" then
    s ++ ["Reach out to someone you trust to talk or spend time together.",
          "Join a community group or online forum with shared interests."] else s
  let s := if bucket = "Moderate" || bucket = "High" then
    s ++ ["Maintain a balanced diet and stay hydrated.",
          "Journal your thoughts and feelings daily."] else s
  let s := if final_score > 75/100 then
    s ++ ["If you\x27re in crisis, please contact: National Suicide Prevention Lifeline 988 (US)",
          "Consider speaking with a mental health professional."] else s
  let s := if bucket = "Low" then
    s ++ ["Keep up the positive habits! Continue monitoring your wellbeing.",
          "Practice gratitude by noting 3 things you\x27re thankful for today."] else s
  if s.isEmpty then
    ["Continue monitoring your mental health daily.",
     "Maintain healthy sleep, exercise, and social connection habits."]
  else s.take 5

/-- Total weight of the modalities that contributed a score
(fusion.py lines 50-60: the sum of `active_weights.values()`). -/
def activeTotal (text_score audio_score image_score : Option ℚ)
    (weights : Weights) : ℚ :=
  (if text_score.isSome then weights.text else 0) +
  (if audio_score.isSome then weights.audio else 0) +
  (if image_score.isSome then weights.image else 0)

/-- The weighted fusion sum (fusion.py lines 67-74) with the weights
renormalized by `activeTotal` (line 62). -/
def fusedRaw (text_score audio_score image_score : Option ℚ)
    (weights : Weights) : ℚ :=
  let tw := activeTotal text_score audio_score image_score weights
  (match text_score with
   | some s => s * (weights.text / tw)
   | none => 0) +
  (match audio_score with
   | some s => s * (weights.audio / tw)
   | none => 0) +
  (match image_score with
   | some s => s * (weights.image / tw)
   | none => 0)

/-- `aggregate_daily_scores` (fusion.py lines 17-109).  The optional
`weights` parameter defaults to `DEFAULT_WEIGHTS` when `none` is
passed, exactly as the Python `weights=None` default does. -/
def aggregate_daily_scores (text_analyses audio_analyses image_analyses :
    List Analysis) (weightsArg : Option Weights) : FusionResult :=
  let weights := weightsArg.getD DEFAULT_WEIGHTS
  let text_score :=
    if ¬ text_analyses.isEmpty then _average_scores text_analyses else none
  let audio_score :=
    if ¬ audio_analyses.isEmpty then _average_scores audio_analyses else none
  let image_score :=
    if ¬ image_analyses.isEmpty then _average_scores image_analyses else none
  let total_weight := activeTotal text_score audio_score image_score weights
  if 0 < total_weight then
    let final_score :=
      round3 (fusedRaw text_score audio_score image_score weights)
    let bucket := fusionBucket final_score
    { final_score := final_score
      bucket := bucket
      modality_scores :=
        { text := text_score.map round3
          audio := audio_score.map round3
          image := image_score.map round3 }
      explanation := _generate_explanation text_score audio_score image_score
        text_analyses audio_analyses image_analyses bucket
      suggestions := _generate_suggestions final_score bucket
        text_analyses audio_analyses image_analyses }
  else
    _no_data_response


/-! ## Text inference service (`services/text_infer.py`) -/

/-- `NEGATIVE_KEYWORDS` (text_infer.py lines 18-24). -/
def NEGATIVE_KEYWORDS : List String :=
  ["sad", "depressed", "anxious", "worried", "stressed", "tired", "exhausted",
   "hopeless", "alone", "lonely", "overwhelmed", "frustrated", "angry",
   "worthless", "empty", "numb", "pain", "hurt", "cry", "crying", "death",
   "die", "suicide", "hate", "terrible", "awful", "horrible", "miserable",
   "helpless", "scared", "fear", "panic", "nightmare", "insomnia", "can\x27t sleep"]

/-- `POSITIVE_KEYWORDS` (text_infer.py lines 26-31). -/
def POSITIVE_KEYWORDS : List String :=
  ["happy", "good", "great", "excellent", "wonderful", "joy", "excited",
   "grateful", "thankful", "blessed", "love", "amazing", "fantastic",
   "peaceful", "calm", "relaxed", "energetic", "motivated", "productive",
   "confident", "hopeful", "optimistic", "better", "improved", "progress"]

/-- A `\w` character of `re.findall(r"\b\w+\b", ...)`, restricted to
ASCII alphanumerics and underscore (the texts the keyword lists can
match are ASCII). -/
def isWordChar (c : Char) : Bool := c.isAlphanum || c == '_'

/-- `re.findall(r"\b\w+\b", text)`: the maximal runs of word
characters. -/
def findWords (s : String) : List String :=
  ((s.toList.splitOnP (fun c => !isWordChar c)).map
    (fun cs => String.mk cs)).filter (fun w => w ≠ "")

/-- Whether `pat` occurs as a contiguous sublist of the second list. -/
def charsIsInfixOf (pat : List Char) : List Char → Bool
  | [] => pat.isEmpty
  | c :: t => pat.isPrefixOf (c :: t) || charsIsInfixOf pat t

/-- Python's substring test `pat in s`. -/
def strContains (s pat : String) : Bool := charsIsInfixOf pat.toList s.toList

/-- The theme detection shared by `analyze_text` (lines 147-156) and
`_analyze_text_keyword_fallback` (lines 236-245); both functions repeat
these four substring checks verbatim. -/
def detectThemes (text_lower : String) : List String :=
  (if ["sleep", "insomnia", "tired", "exhausted"].any
      (fun w => strContains text_lower w) then ["sleep_issues"] else []) ++
  (if ["anxious", "worried", "panic", "scared"].any
      (fun w => strContains text_lower w) then ["anxiety"] else []) ++
  (if ["sad", "depressed", "hopeless", "empty"].any
      (fun w => strContains text_lower w) then ["low_mood"] else []) ++
  (if ["alone", "lonely", "isolated"].any
      (fun w => strContains text_lower w) then ["isolation"] else [])

/-- One entry of the `tokens` highlight list (`{"word": ..., "type":
..., "importance": ...}`). -/
structure TokenHighlight where
  word : String
  type : String
  importance : ℚ
deriving DecidableEq

/-- The `explain` sub-dictionary returned by the text service. -/
structure TextExplain where
  tokens : List TokenHighlight
  sentiment : String
  dominant_themes : List String
  negative_indicators : Nat
  positive_indicators : Nat
  text_length : Nat
deriving DecidableEq

/-- The dictionary returned by `analyze_text` and its fallback: the
`score`, `bucket`, `explain` keys. -/
structure TextResult where
  score : ℚ
  bucket : String
  explain : TextExplain
deriving DecidableEq

/-- The keyword-match loop of text_infer.py (lines 115-119 and
184-188): a word counts as negative if it is in `NEGATIVE_KEYWORDS`,
and as positive only otherwise (`elif`). -/
def negativeMatches (words : List String) : List String :=
  words.filter (fun w => NEGATIVE_KEYWORDS.contains w)

def positiveMatches (words : List String) : List String :=
  words.filter
    (fun w => !NEGATIVE_KEYWORDS.contains w && POSITIVE_KEYWORDS.contains w)

/-- The highlight list built from `set(negative_matches)` and
`set(positive_matches)` (lines 133-145 and 222-234).  Python set
iteration order is unspecified; it is modelled as first-occurrence
deduplication. -/
def highlightedTokens (negative_matches positive_matches : List String) :
    List TokenHighlight :=
  negative_matches.dedup.map (fun w => ⟨w, "negative", 8/10⟩) ++
  positive_matches.dedup.map (fun w => ⟨w, "positive", 6/10⟩)

/-- `_analyze_text_keyword_fallback` (text_infer.py lines 173-258). -/
def _analyze_text_keyword_fallback (text : String) : TextResult :=
  let text_lower := text.toLower
  let words := findWords text_lower
  let negative_matches := negativeMatches words
  let positive_matches := positiveMatches words
  let neg_count := negative_matches.length
  let pos_count := positive_matches.length
  let total_words := max words.length 1
  let base_score : ℚ :=
    if neg_count = 0 && pos_count = 0 then 35/100
    else
      let b := min 1 (((neg_count : ℚ) * (15/100)) /
        max ((total_words : ℚ) * (1/10)) 1)
      max 0 (b - ((pos_count : ℚ) * (5/100)) /
        max ((total_words : ℚ) * (1/10)) 1)
  let base_score := if words.length < 10 then base_score * (8/10) else base_score
  let score := min 1 (max 0 (base_score + 2/10))
  let bucket := textFallbackBucket score
  let sentiment := textFallbackSentiment score
  { score := round3 score
    bucket := bucket
    explain :=
      { tokens := (highlightedTokens negative_matches positive_matches).take 10
        sentiment := sentiment ++ " (keyword-based fallback)"
        dominant_themes := detectThemes text_lower
        negative_indicators := neg_count
        positive_indicators := pos_count
        text_length := words.length } }

/-- Outcome of `_load_models` plus the transformer pipeline call in
`analyze_text`: `fallback` is `_sentiment_model == "fallback"` (model
load failed, lines 51-54 and 82-83); `err` is an exception raised
inside the `try` block (lines 103-105); `ok label confidence` is
`model(text[:512])[0]` returning that label and score. -/
inductive ModelOutcome where
  | fallback
  | err
  | ok (label : String) (confidence : ℚ)

/-- `analyze_text` (text_infer.py lines 59-169), with the external
transformer call abstracted by `outcome`. -/
def analyze_text (outcome : ModelOutcome) (text : String) : TextResult :=
  match outcome with
  | .fallback => _analyze_text_keyword_fallback text
  | .err => _analyze_text_keyword_fallback text
  | .ok label confidence =>
    let label := label.toLower
    let base_score : ℚ :=
      if label = "negative" then 5/10 + confidence * (4/10)
      else if label = "positive" then 1/10 + (1 - confidence) * (3/10)
      else 3/10 + confidence * (2/10)
    let sentiment := label.capitalize
    let text_lower := text.toLower
    let words := findWords text_lower
    let negative_matches := negativeMatches words
    let positive_matches := positiveMatches words
    let score := min 1 (max 0 base_score)
    let bucket := textBucket score
    { score := round3 score
      bucket := bucket
      explain :=
        { tokens := (highlightedTokens negative_matches positive_matches).take 10
          sentiment := sentiment
          dominant_themes := detectThemes text_lower
          negative_indicators := negative_matches.length
          positive_indicators := positive_matches.length
          text_length := words.length } }


/-! ## Audio inference service (`services/audio_infer.py`)

The external pieces (librosa, soundfile, the Wav2Vec2 pipeline, pydub
conversion, and the Mersenne-Twister PRNG behind `random`) cannot be
executed inside a shallow embedding; each is abstracted as a parameter
of the environment below.  Everything downstream of those calls --
branch structure, emotion-to-stress mapping, normalization,
bucketing -- is embedded from the source. -/

/-- `EMOTIONS` (audio_infer.py line 40). -/
def EMOTIONS : List String :=
  ["neutral", "happy", "sad", "angry", "fear", "surprise"]

/-- `EMOTION_STRESS_MAP` (lines 43-50) as a total function; the final
branch is the `0.5` default of `.get(dominant_emotion, 0.5)`
(line 299). -/
def EMOTION_STRESS_MAP (e : String) : ℚ :=
  if e = "neutral" then 3/10
  else if e = "happy" then 1/10
  else if e = "sad" then 7/10
  else if e = "angry" then 8/10
  else if e = "fear" then 85/100
  else if e = "surprise" then 4/10
  else 5/10

/-- The `explain` sub-dictionary of an audio analysis, covering the
keys of both the model path and the fallback path: the model path has
no `salient_frames` (it keeps the list empty here) and stores its
`model` tag in `note`; the fallback stores its placeholder note
there. -/
structure AudioExplain where
  dominant_emotion : String
  emotion_distribution : List (String × ℚ)
  vocal_features : List (String × ℚ)
  salient_frames : List Nat
  confidence : ℚ
  note : String
deriving DecidableEq

/-- The dictionary returned by `analyze_audio` and its fallback: the
`score`, `bucket`, `explain` keys. -/
structure AudioResult where
  score : ℚ
  bucket : String
  explain : AudioExplain
deriving DecidableEq

/-- `max(emotions_prob.items(), key=lambda x: x[1])[0]` (lines 212 and
296): the key of the first item achieving the maximal value (Python's
`max` keeps the first maximum; dict iteration order is insertion
order). -/
def dominantOf : List (String × ℚ) → String
  | [] => ""
  | (e, p) :: rest =>
    let r := dominantOf rest
    if rest.all (fun x => x.2 ≤ p) then e else r

/-- `filename_hash = sum(ord(c) for c in filename)` (line 280). -/
def filenameHash (filename : String) : Nat :=
  (filename.toList.map (fun c => c.toNat)).sum

/-- `random.uniform(a, b)` driven by one PRNG draw `u ∈ [0,1)`:
`a + u * (b - a)`. -/
def uniformDraw (a b u : ℚ) : ℚ := a + u * (b - a)

/-- `_analyze_audio_fallback` (audio_infer.py lines 276-341).  `rng
seed i` is the `i`-th value the seeded `random` module produces after
`random.seed(seed)` (line 281); `audio_bytes` is accepted and ignored
exactly as in the source.  `random.sample` of the salient frames
(line 328) is modelled as the first `min 5 num_frames` frame indices in
order; the sampled set is PRNG-internal and no claim depends on it. -/
def _analyze_audio_fallback (rng : Nat → Nat → ℚ) (_audio_bytes : List Nat)
    (filename : String) : AudioResult :=
  let seed := filenameHash filename
  let draws := (List.range EMOTIONS.length).map (fun i => rng seed i)
  let total := draws.sum
  let emotions_prob := EMOTIONS.zip (draws.map (fun p => round3 p))
  let emotions_prob := emotions_prob.map (fun x => (x.1, round3 (x.2 / total)))
  let dominant_emotion := dominantOf emotions_prob
  let base_score := EMOTION_STRESS_MAP dominant_emotion
  let stress_contribution :=
    (emotions_prob.map (fun x => x.2 * EMOTION_STRESS_MAP x.1)).sum
  let score := round3 (base_score * (6/10) + stress_contribution * (4/10))
  let bucket := audioFallbackBucket score
  let vocal_features : List (String × ℚ) :=
    [("mean_pitch", uniformDraw 80 250 (rng seed 6)),
     ("pitch_variance", uniformDraw 10 50 (rng seed 7)),
     ("energy", uniformDraw (3/10) (9/10) (rng seed 8)),
     ("speech_rate", uniformDraw 2 5 (rng seed 9)),
     ("zero_crossing_rate", uniformDraw (1/10) (4/10) (rng seed 10))]
  let num_frames := 50 + (⌊rng seed 11 * 51⌋).toNat
  let salient_frames := (List.range num_frames).take (min 5 num_frames)
  { score := score
    bucket := bucket
    explain :=
      { dominant_emotion := dominant_emotion
        emotion_distribution := emotions_prob
        vocal_features := vocal_features
        salient_frames := salient_frames
        confidence :=
          ((emotions_prob.find? (fun x => x.1 == dominant_emotion)).map
            (fun x => round3 x.2)).getD 0
        note := "Placeholder analysis - install librosa for real features" } }

/-- The environment of external facts `analyze_audio` runs in:
* `librosa_available`, `transformers_available`: the import guards
  (audio_infer.py lines 14-29);
* `audio_model`: the cached result of `_load_audio_model` -- `none`
  models `"fallback"` (load failure); `some run` is the Wav2Vec2
  pipeline, returning label/score pairs or raising;
* `convert`: `_convert_webm_to_wav`, which may raise;
* `vocal_features`: the librosa feature-extraction block (lines
  232-252), which always yields some dictionary;
* `rng`: the seeded `random` stream used by the fallback. -/
structure AudioEnv where
  librosa_available : Bool
  transformers_available : Bool
  audio_model : Option (List Nat → Except String (List (String × ℚ)))
  convert : List Nat → Except String (List Nat)
  vocal_features : List Nat → List (String × ℚ)
  rng : Nat → Nat → ℚ

/-- The model-path result computation of `analyze_audio` (audio_infer.py
lines 204-272): lower-cased, 3-decimal-rounded label probabilities; the
stress contribution weighting sad/angry/fear at 0.75, happy/calm at
0.15 and everything else at 0.4; the clamped, rounded score; and the
same bucket thresholds. -/
def audioModelResult (results : List (String × ℚ))
    (features : List (String × ℚ)) : AudioResult :=
  let emotions_prob := results.map (fun r => (r.1.toLower, round3 r.2))
  let dominant_emotion := dominantOf emotions_prob
  let stress_contribution :=
    (emotions_prob.map (fun x =>
      if strContains x.1 "sad" || strContains x.1 "angry" ||
          strContains x.1 "fear" then x.2 * (75/100)
      else if strContains x.1 "happy" || strContains x.1 "calm" then
        x.2 * (15/100)
      else x.2 * (4/10))).sum
  let score := round3 (min 1 (max 0 stress_contribution))
  let bucket := audioBucket score
  { score := score
    bucket := bucket
    explain :=
      { dominant_emotion := dominant_emotion
        emotion_distribution := emotions_prob
        vocal_features := features
        salient_frames := []
        confidence :=
          ((emotions_prob.find? (fun x => x.1 == dominant_emotion)).map
            (fun x => round3 x.2)).getD 0
        note := "Wav2Vec2 (pre-trained)" } }

/-- `analyze_audio` (audio_infer.py lines 149-272).  Every `return
_analyze_audio_fallback(...)` in the source is a normal return, never
an exception: the result type is `Except` only so that "the endpoint
raises" remains expressible; this embedding shows it never does.  An
empty model result feeds `max` an empty sequence, whose `ValueError`
the `try` at line 189 turns into the fallback as well. -/
def analyze_audio (env : AudioEnv) (audio_bytes : List Nat)
    (filename : String) : Except String AudioResult :=
  if !env.librosa_available || !env.transformers_available then
    .ok (_analyze_audio_fallback env.rng audio_bytes filename)
  else
    let converted : Except String (List Nat) :=
      if filename.toLower.endsWith ".webm" then env.convert audio_bytes
      else .ok audio_bytes
    match converted with
    | .error _ => .ok (_analyze_audio_fallback env.rng audio_bytes filename)
    | .ok audio_bytes2 =>
      match env.audio_model with
      | none => .ok (_analyze_audio_fallback env.rng audio_bytes2 filename)
      | some run =>
        match run audio_bytes2 with
        | .error _ => .ok (_analyze_audio_fallback env.rng audio_bytes2 filename)
        | .ok results =>
          if results.isEmpty then
            .ok (_analyze_audio_fallback env.rng audio_bytes2 filename)
          else
            .ok (audioModelResult results (env.vocal_features audio_bytes2))


/-! ## Session model (`models/session.py`)

The MongoDB `sessions` collection is modelled as a list of documents in
insertion order: `find_one` / `find_one_and_update` scan for the first
match, `insert_one` appends.  The analysis sub-documents are opaque
JSON-like payloads (their contents play no role in the
one-session-per-user-per-date invariant); timestamps are naturals. -/

/-- A JSON-like analysis or fusion sub-document, opaque to the session
layer. -/
abbrev Payload := List (String × String)

/-- One document of the `sessions` collection (`Session.to_mongo_dict`,
session.py lines 70-83; `_id` is omitted -- Mongo's generated ids play
no role in any claim). -/
structure SessionDoc where
  user_id : String
  username : String
  date : String
  text_analysis : Payload
  audio_analysis : Payload
  image_analysis : Payload
  fusion_result : Payload
  created_at : Nat
  updated_at : Nat

/-- The sessions collection. -/
abbrev Sessions := List SessionDoc

/-- The query `{"user_id": ObjectId(user_id), "date": session_date}`
used by every session operation. -/
def sessionKeyMatch (user_id session_date : String) (d : SessionDoc) : Bool :=
  d.user_id == user_id && d.date == session_date

/-- `collection.find_one({...})` on the sessions collection. -/
def sessionsFindOne (coll : Sessions) (user_id session_date : String) :
    Option SessionDoc :=
  coll.find? (sessionKeyMatch user_id session_date)

/-- `get_session` (session.py lines 133-142): read-only. -/
def get_session (coll : Sessions) (user_id session_date : String) :
    Option SessionDoc :=
  sessionsFindOne coll user_id session_date

/-- `create_session` (session.py lines 104-130): return the existing
session if one exists for this user and date, otherwise insert a fresh
document.  Returns the session together with the new collection
state. -/
def create_session (coll : Sessions) (user_id username session_date : String)
    (now : Nat) : SessionDoc × Sessions :=
  match sessionsFindOne coll user_id session_date with
  | some existing_session => (existing_session, coll)
  | none =>
    let session : SessionDoc :=
      { user_id := user_id
        username := username
        date := session_date
        text_analysis := []
        audio_analysis := []
        image_analysis := []
        fusion_result := []
        created_at := now
        updated_at := now }
    (session, coll ++ [session])

/-- `collection.find_one_and_update({...}, {"$set": ...},
return_document=True)`: update the first matching document with `f`
and return the updated document. -/
def sessionsFindOneAndUpdate (user_id session_date : String)
    (f : SessionDoc → SessionDoc) :
    Sessions → Option SessionDoc × Sessions
  | [] => (none, [])
  | d :: rest =>
    if sessionKeyMatch user_id session_date d then
      (some (f d), f d :: rest)
    else
      ((sessionsFindOneAndUpdate user_id session_date f rest).1,
       d :: (sessionsFindOneAndUpdate user_id session_date f rest).2)

/-- `update_session_text` (session.py lines 163-178): `$set` of
`text_analysis` and `updated_at`. -/
def update_session_text (coll : Sessions) (user_id session_date : String)
    (text_analysis : Payload) (now : Nat) : Option SessionDoc × Sessions :=
  sessionsFindOneAndUpdate user_id session_date
    (fun d => { d with text_analysis := text_analysis, updated_at := now }) coll

/-- `update_session_audio` (session.py lines 181-196). -/
def update_session_audio (coll : Sessions) (user_id session_date : String)
    (audio_analysis : Payload) (now : Nat) : Option SessionDoc × Sessions :=
  sessionsFindOneAndUpdate user_id session_date
    (fun d => { d with audio_analysis := audio_analysis, updated_at := now }) coll

/-- `update_session_image` (session.py lines 199-214). -/
def update_session_image (coll : Sessions) (user_id session_date : String)
    (image_analysis : Payload) (now : Nat) : Option SessionDoc × Sessions :=
  sessionsFindOneAndUpdate user_id session_date
    (fun d => { d with image_analysis := image_analysis, updated_at := now }) coll

/-- `update_session_fusion` (session.py lines 217-232). -/
def update_session_fusion (coll : Sessions) (user_id session_date : String)
    (fusion_result : Payload) (now : Nat) : Option SessionDoc × Sessions :=
  sessionsFindOneAndUpdate user_id session_date
    (fun d => { d with fusion_result := fusion_result, updated_at := now }) coll

/-- Collection states reachable from the empty collection by any
sequence of `create_session` and `update_session_*` calls
(`get_session` is read-only and does not change the state). -/
inductive SessionsReachable : Sessions → Prop where
  | empty : SessionsReachable []
  | create (coll : Sessions) (user_id username session_date : String)
      (now : Nat) : SessionsReachable coll →
      SessionsReachable (create_session coll user_id username session_date now).2
  | updateText (coll : Sessions) (user_id session_date : String)
      (p : Payload) (now : Nat) : SessionsReachable coll →
      SessionsReachable (update_session_text coll user_id session_date p now).2
  | updateAudio (coll : Sessions) (user_id session_date : String)
      (p : Payload) (now : Nat) : SessionsReachable coll →
      SessionsReachable (update_session_audio coll user_id session_date p now).2
  | updateImage (coll : Sessions) (user_id session_date : String)
      (p : Payload) (now : Nat) : SessionsReachable coll →
      SessionsReachable (update_session_image coll user_id session_date p now).2
  | updateFusion (coll : Sessions) (user_id session_date : String)
      (p : Payload) (now : Nat) : SessionsReachable coll →
      SessionsReachable (update_session_fusion coll user_id session_date p now).2

/-- At most one session document per `(user_id, date)` pair. -/
def OneSessionPerUserDate (coll : Sessions) : Prop :=
  ∀ user_id session_date : String,
    (coll.filter (sessionKeyMatch user_id session_date)).length ≤ 1

/-! ## User model (`models/user.py`) and the signup endpoint -/

/-- One document of the `users` collection (`User.to_mongo_dict`,
user.py lines 34-42; `_id` omitted as above). -/
structure UserDoc where
  username : String
  email : String
  hashed_password : String
  created_at : Nat
deriving DecidableEq

abbrev Users := List UserDoc

/-- The `$or` duplicate query of `create_user` (user.py line 63). -/
def userDupMatch (username email : String) (u : UserDoc) : Bool :=
  u.username == username || u.email == email

/-- `create_user` (user.py lines 58-75).  `hashPw` abstracts
`hash_password` (bcrypt with a random salt; its output affects no
claim). -/
def create_user (hashPw : String → String) (coll : Users)
    (username email password : String) (now : Nat) :
    Option UserDoc × Users :=
  match coll.find? (userDupMatch username email) with
  | some _ => (none, coll)
  | none =>
    let user : UserDoc :=
      { username := username
        email := email
        hashed_password := hashPw password
        created_at := now }
    (some user, coll ++ [user])

/-- An HTTP response of the signup endpoint: either an
`HTTPException(status_code, detail)` or the success body (the JWT
`access_token` abstracted by the `mkToken` parameter below). -/
inductive SignupResponse where
  | error (status : Nat) (detail : String)
  | success (access_token : String) (user : UserDoc)
deriving DecidableEq

/-- `POST /auth/signup` (app.py lines 195-221): input validation, then
`create_user`, 400 on duplicate, else a token for the fresh user. -/
def signup (hashPw : String → String) (mkToken : String → String)
    (coll : Users) (username email password : String) (now : Nat) :
    SignupResponse × Users :=
  if username.length < 3 then
    (.error 400 "Username must be at least 3 characters", coll)
  else if password.length < 6 then
    (.error 400 "Password must be at least 6 characters", coll)
  else if !(strContains email "@") then
    (.error 400 "Invalid email address", coll)
  else
    match create_user hashPw coll username email password now with
    | (none, coll2) => (.error 400 "Username or email already exists", coll2)
    | (some user, coll2) => (.success (mkToken user.username) user, coll2)


/-! ## Storage service (`services/storage.py`)

`STORAGE` is a Python dict from modality name to a list of entries;
it is modelled as an association list in key-insertion order (the
iteration order Python dicts guarantee).  File-based persistence is
disabled in the source (`USE_FILE_STORAGE = False`), so only the
in-memory branch is embedded. -/

/-- The payload dictionary of a stored entry, covering the keys the
storage layer reads: `date` is the `.get("date")` of daily-aggregate
entries (absent on per-modality entries); `final_score` and `bucket`
are read from a matched daily aggregate; `analysis` holds the keys the
fusion service reads from per-modality entries. -/
structure StoredData where
  date : Option String
  final_score : ℚ
  bucket : String
  analysis : Analysis
deriving DecidableEq

/-- One entry of `STORAGE` (`store_analysis`, storage.py lines
43-48). -/
structure StoredEntry where
  id : String
  modality : String
  timestamp : String
  data : StoredData
deriving DecidableEq

abbrev Storage := List (String × List StoredEntry)

/-- The initial `STORAGE` dict (storage.py lines 15-20). -/
def STORAGE_INIT : Storage :=
  [("text", []), ("audio", []), ("image", []), ("daily_aggregate", [])]

/-- `STORAGE.get(modality, [])`. -/
def storageGet (st : Storage) (modality : String) : List StoredEntry :=
  ((st.find? (fun p => p.1 == modality)).map (fun p => p.2)).getD []

/-- `store_analysis` (storage.py lines 27-60), state change only: append
to the modality's list, creating the key if absent.  The entry's
timestamp-based id is part of `entry`. -/
def store_analysis (st : Storage) (modality : String) (entry : StoredEntry) :
    Storage :=
  if (st.find? (fun p => p.1 == modality)).isSome then
    st.map (fun p => if p.1 == modality then (p.1, p.2 ++ [entry]) else p)
  else
    st ++ [(modality, [entry])]

structure DailyEntries where
  text : List Analysis
  audio : List Analysis
  image : List Analysis
deriving DecidableEq

/-- `get_daily_entries` (storage.py lines 63-86): per modality, the
data of the entries whose `timestamp[:10]` equals `date_str`. -/
def get_daily_entries (st : Storage) (date_str : String) : DailyEntries :=
  { text := ((storageGet st "text").filter
      (fun e => e.timestamp.take 10 == date_str)).map (fun e => e.data.analysis)
    audio := ((storageGet st "audio").filter
      (fun e => e.timestamp.take 10 == date_str)).map (fun e => e.data.analysis)
    image := ((storageGet st "image").filter
      (fun e => e.timestamp.take 10 == date_str)).map (fun e => e.data.analysis) }

/-! ### Calendar dates

`datetime.date` values are modelled by their day number (days since
1970-01-01, negative before); `formatDate` is `strftime("%Y-%m-%d")`
via the standard civil-from-days conversion. -/

/-- Gregorian (year, month, day) of a day number (days since
1970-01-01). -/
def civilFromDays (z : ℤ) : ℤ × ℤ × ℤ :=
  let z2 := z + 719468
  let era := (if 0 ≤ z2 then z2 else z2 - 146096) / 146097
  let doe := z2 - era * 146097
  let yoe := (doe - doe / 1460 + doe / 36524 - doe / 146096) / 365
  let y := yoe + era * 400
  let doy := doe - (365 * yoe + yoe / 4 - yoe / 100)
  let mp := (5 * doy + 2) / 153
  let d := doy - (153 * mp + 2) / 5 + 1
  let m := mp + (if mp < 10 then 3 else -9)
  (y + (if m ≤ 2 then 1 else 0), m, d)

def pad2 (n : Nat) : String :=
  if n < 10 then "0" ++ toString n else toString n

def pad4 (n : Nat) : String :=
  let s := toString n
  String.mk (List.replicate (4 - s.length) '0') ++ s

/-- `strftime("%Y-%m-%d")` of a day number (CE years zero-padded to 4
digits, month and day to 2). -/
def formatDate (z : ℤ) : String :=
  let c := civilFromDays z
  (if c.1 < 0 then "-" ++ pad4 (-c.1).toNat else pad4 c.1.toNat) ++ "-" ++
    pad2 c.2.1.toNat ++ "-" ++ pad2 c.2.2.toNat

structure TrendData where
  dates : List String
  scores : List (Option ℚ)
  buckets : List String
deriving DecidableEq

/-- The per-date body of the `get_trend_data` loop (storage.py lines
117-142): a stored daily aggregate for the date wins; otherwise fuse
the day's entries on the fly; otherwise `(None, "No Data")`. -/
def trendScoreBucket (st : Storage) (date_str : String) : Option ℚ × String :=
  match (storageGet st "daily_aggregate").find?
      (fun e => e.data.date == some date_str) with
  | some e => (some e.data.final_score, e.data.bucket)
  | none =>
    let daily_data := get_daily_entries st date_str
    if !daily_data.text.isEmpty || !daily_data.audio.isEmpty ||
        !daily_data.image.isEmpty then
      let result := aggregate_daily_scores daily_data.text daily_data.audio
        daily_data.image none
      (some result.final_score, result.bucket)
    else
      (none, "No Data")

/-- The `while current_date <= end_date` loop of `get_trend_data`,
with `n` remaining iterations starting at day number `current`. -/
def trendLoop (st : Storage) (current : ℤ) :
    Nat → List String × List (Option ℚ) × List String
  | 0 => ([], [], [])
  | n + 1 =>
    let date_str := formatDate current
    let sb := trendScoreBucket st date_str
    let rest := trendLoop st (current + 1) n
    (date_str :: rest.1, sb.1 :: rest.2.1, sb.2 :: rest.2.2)

/-- `get_trend_data` (storage.py lines 89-150).  `today` is
`datetime.now().date()` as a day number; the loop runs once per day
from `start_date = today - (days - 1)` through `today`. -/
def get_trend_data (st : Storage) (today : ℤ) (days : ℤ) : TrendData :=
  let end_date := today
  let start_date := end_date - (days - 1)
  let n := (end_date - start_date + 1).toNat
  let r := trendLoop st start_date n
  { dates := r.1, scores := r.2.1, buckets := r.2.2 }

/-- `purge_all_data` (storage.py lines 153-173): empty every modality
list, returning the number of entries deleted. -/
def purge_all_data : Storage → Nat × Storage
  | [] => (0, [])
  | (k, entries) :: rest =>
    let r := purge_all_data rest
    (entries.length + r.1, (k, []) :: r.2)

structure StorageStats where
  total_entries : Nat
  by_modality : List (String × Nat)
  storage_mode : String
  oldest_entry : Option String
  newest_entry : Option String
deriving DecidableEq

/-- `get_stats` (storage.py lines 176-201). -/
def get_stats (st : Storage) : StorageStats :=
  let all_timestamps :=
    (st.map (fun p => p.2.map (fun e => e.timestamp))).flatten
  { total_entries := (st.map (fun p => p.2.length)).sum
    by_modality := st.map (fun p => (p.1, p.2.length))
    storage_mode := "in-memory"
    oldest_entry := all_timestamps.min?
    newest_entry := all_timestamps.max? }

/-! ## The `/sessions/aggregate` endpoint (`app.py`) -/

/-- The final-score computation of `POST /sessions/aggregate` (app.py
lines 484-505): per-modality scores are collected into
`modality_scores` in text/audio/image order, then
`final_score = sum(modality_scores[m] * weights.get(m, 1.0)) /
len(modality_scores)` with the fixed weights text 0.4, audio 0.3,
image 0.3.  Returns `none` for the 400 response raised when no
modality score is present. -/
def sessionAggregateFinalScore (text_score audio_score image_score :
    Option ℚ) : Option ℚ :=
  let modality_scores : List (String × ℚ) :=
    (match text_score with | some s => [("text", s)] | none => []) ++
    (match audio_score with | some s => [("audio", s)] | none => []) ++
    (match image_score with | some s => [("image", s)] | none => [])
  if modality_scores.isEmpty then none
  else
    let weightOf : String → ℚ := fun m =>
      if m = "text" then 4/10
      else if m = "audio" then 3/10
      else if m = "image" then 3/10
      else 1
    some ((modality_scores.map (fun x => x.2 * weightOf x.1)).sum /
      modality_scores.length)


/-- A concrete audio environment for evaluating the fallback theorems
on a closed instance: librosa missing, model not loaded, and a simple
deterministic stand-in for the seeded PRNG stream. -/
def demoAudioEnv : AudioEnv :=
  { librosa_available := false
    transformers_available := true
    audio_model := none
    convert := fun b => .ok b
    vocal_features := fun _ => []
    rng := fun seed i => (((seed + 7 * i) % 10 : Nat) : ℚ) / 10 }

/-- No stored data of any modality for a date: no stored daily
aggregate whose `date` matches, and no text/audio/image entry whose
`timestamp[:10]` matches. -/
def noTrendData (st : Storage) (date_str : String) : Prop :=
  (storageGet st "daily_aggregate").find?
    (fun e => e.data.date == some date_str) = none ∧
  get_daily_entries st date_str = ⟨[], [], []⟩

/-- Concrete session-collection states for evaluating the reachability
theorem on a closed instance: create the same session twice (the second
call returns the existing one), then update its text analysis. -/
def demoSessions1 : Sessions := (create_session [] "u1" "alice" "2024-01-01" 0).2

def demoSessions2 : Sessions :=
  (create_session demoSessions1 "u1" "alice" "2024-01-01" 5).2

def demoSessions3 : Sessions :=
  (update_session_text demoSessions2 "u1" "2024-01-01" [("score", "0.41")] 6).2

/-! # Theorems -/

/-! ## Shared helper lemmas -/

theorem suggestions_take_bounds (L : List String) :
    1 ≤ (if L.isEmpty then
      ["Continue monitoring your mental health daily.",
       "Maintain healthy sleep, exercise, and social connection habits."]
      else L.take 5).length ∧
    (if L.isEmpty then
      ["Continue monitoring your mental health daily.",
       "Maintain healthy sleep, exercise, and social connection habits."]
      else L.take 5).length ≤ 5 := by
  cases L with
  | nil => simp
  | cons x xs => simp [List.length_take]

theorem generate_suggestions_bounds (fs : ℚ) (b : String)
    (t a i : List Analysis) :
    1 ≤ (_generate_suggestions fs b t a i).length ∧
    (_generate_suggestions fs b t a i).length ≤ 5 := by
  unfold _generate_suggestions
  exact suggestions_take_bounds _

/-- The suggestions of a fusion result are either the no-data default
or a `_generate_suggestions` output. -/
theorem aggregate_suggestions_cases (t a i : List Analysis) (w : Option Weights) :
    (aggregate_daily_scores t a i w).suggestions =
      ["Please log your daily text, audio, or image entries."] ∨
    ∃ fs b, (aggregate_daily_scores t a i w).suggestions =
      _generate_suggestions fs b t a i := by
  simp only [aggregate_daily_scores]
  repeat' split
  all_goals first
    | exact Or.inl rfl
    | exact Or.inr ⟨_, _, rfl⟩

/-! ## Claims -/

/-- Claim C1 (the code diverges from it): the `/sessions/aggregate`
endpoint is *not* a convex combination of the present modality scores.
At the failing input where every modality score is 0.9, the endpoint
divides the fixed-weight sum (0.4+0.3+0.3)·0.9 = 0.9 by the number of
present modalities and returns 0.3 — strictly below the minimum
present score even after allowing 1/2000 for 3-decimal rounding, and
bucketed "Low" although every input is "High".  On the same scores
`aggregate_daily_scores` returns 0.9, as the claim describes. -/
theorem claim_C1_session_aggregate_not_convex :
    sessionAggregateFinalScore (some (9/10)) (some (9/10)) (some (9/10)) =
      some (3/10) ∧
    (3/10 : ℚ) < 9/10 - 1/2000 ∧
    categorize_risk (3/10) = "Low" ∧
    (aggregate_daily_scores
      [⟨some (9/10), [], none, []⟩]
      [⟨some (9/10), [], none, []⟩]
      [⟨some (9/10), [], none, []⟩] none).final_score = 9/10 := by
  refine ⟨?_, by norm_num, ?_, ?_⟩
  · simp [sessionAggregateFinalScore]
    norm_num
  · simp [categorize_risk]
    norm_num
  · simp [aggregate_daily_scores, activeTotal, _average_scores, fusedRaw,
      DEFAULT_WEIGHTS, round3]
    norm_num

/-- Claim C2: risk bucketing follows the fixed thresholds — for every
score `s`, `categorize_risk` yields "Low" iff `s < 0.33`, "Moderate"
iff `0.33 ≤ s < 0.66`, "High" iff `0.66 ≤ s`, and every bucketing site
(`categorize_risk` in app.py, the inline chain of
`aggregate_daily_scores`, and both chains of `analyze_text` and its
keyword fallback, plus the audio service's two chains) computes the
same bucket. -/
theorem claim_C2_bucket_thresholds (s : ℚ) :
    (categorize_risk s = "Low" ↔ s < 33/100) ∧
    (categorize_risk s = "Moderate" ↔ 33/100 ≤ s ∧ s < 66/100) ∧
    (categorize_risk s = "High" ↔ 66/100 ≤ s) ∧
    fusionBucket s = categorize_risk s ∧
    textBucket s = categorize_risk s ∧
    textFallbackBucket s = categorize_risk s ∧
    audioBucket s = categorize_risk s ∧
    audioFallbackBucket s = categorize_risk s := by
  refine ⟨?_, ?_, ?_, rfl, rfl, rfl, rfl, rfl⟩ <;>
    unfold categorize_risk <;>
    split_ifs with h1 h2 <;> simp_all <;>
    first
      | linarith
      | (constructor <;> linarith)
      | (intro h; linarith)
      | (rintro ⟨h3, h4⟩; linarith)

/-- Claim C9: with all three modality lists empty (and any weights
argument), `aggregate_daily_scores` returns the fixed default
response: final_score 0.5, bucket "Moderate", and all three modality
scores `None`. -/
theorem claim_C9_no_data_default (w : Option Weights) :
    aggregate_daily_scores [] [] [] w = _no_data_response ∧
    (aggregate_daily_scores [] [] [] w).final_score = 5/10 ∧
    (aggregate_daily_scores [] [] [] w).bucket = "Moderate" ∧
    (aggregate_daily_scores [] [] [] w).modality_scores =
      ⟨none, none, none⟩ := by
  have h : aggregate_daily_scores [] [] [] w = _no_data_response := by
    cases w <;> simp [aggregate_daily_scores, activeTotal, _average_scores]
  refine ⟨h, ?_, ?_, ?_⟩ <;> rw [h] <;> rfl

/-- Claim C10: for every input, the suggestions list returned by
`aggregate_daily_scores` is non-empty and has at most 5 entries. -/
theorem claim_C10_suggestions_bounds (t a i : List Analysis)
    (w : Option Weights) :
    1 ≤ (aggregate_daily_scores t a i w).suggestions.length ∧
    (aggregate_daily_scores t a i w).suggestions.length ≤ 5 := by
  rcases aggregate_suggestions_cases t a i w with h | ⟨fs, b, h⟩ <;> rw [h]
  · simp
  · exact generate_suggestions_bounds fs b t a i


theorem textFallbackBucket_cases (s : ℚ) :
    textFallbackBucket s = "Low" ∨ textFallbackBucket s = "Moderate" ∨
    textFallbackBucket s = "High" := by
  unfold textFallbackBucket
  split_ifs <;> simp

theorem audioFallbackBucket_cases (s : ℚ) :
    audioFallbackBucket s = "Low" ∨ audioFallbackBucket s = "Moderate" ∨
    audioFallbackBucket s = "High" := by
  unfold audioFallbackBucket
  split_ifs <;> simp

/-- `_analyze_audio_fallback` never reads the audio bytes (the source
accepts and ignores them). -/
theorem fallback_ignores_bytes (rng : Nat → Nat → ℚ) (b1 b2 : List Nat)
    (fn : String) :
    _analyze_audio_fallback rng b1 fn = _analyze_audio_fallback rng b2 fn := rfl

/-- Whenever librosa or transformers failed to import, or the audio
model failed to load, `analyze_audio` returns the seeded placeholder
result along every path (including webm conversion success and
failure). -/
theorem analyze_audio_unavailable (env : AudioEnv) (bytes : List Nat)
    (fn : String)
    (h : env.librosa_available = false ∨ env.transformers_available = false ∨
      env.audio_model = none) :
    analyze_audio env bytes fn =
      .ok (_analyze_audio_fallback env.rng bytes fn) := by
  unfold analyze_audio
  rcases h with h | h | h
  · rw [h]
    rfl
  · rcases Bool.eq_false_or_eq_true env.librosa_available with hl | hl <;>
      rw [hl, h] <;> rfl
  · rcases Bool.eq_false_or_eq_true env.librosa_available with hl | hl
    · rcases Bool.eq_false_or_eq_true env.transformers_available with ht | ht
      · rw [hl, ht, h]
        cases hw : fn.toLower.endsWith ".webm" with
        | false => rfl
        | true =>
          rcases hc : env.convert bytes with e | b2
          · rfl
          · exact congrArg Except.ok (fallback_ignores_bytes env.rng b2 bytes fn)
      · rw [hl, ht]
        rfl
    · rw [hl]
      rfl

/-- Claim C6: when the pretrained model fails to load or its libraries
fail to import, `analyze_text` returns the keyword-based fallback
result and `analyze_audio` returns the seeded placeholder result —
each a well-formed result (the `score`/`bucket`/`explain` fields are
the record's fields, and the bucket is one of the three risk labels) —
instead of raising an exception. -/
theorem claim_C6_model_failure_fallback :
    (∀ text : String,
      analyze_text .fallback text = _analyze_text_keyword_fallback text ∧
      ((analyze_text .fallback text).bucket = "Low" ∨
       (analyze_text .fallback text).bucket = "Moderate" ∨
       (analyze_text .fallback text).bucket = "High")) ∧
    (∀ (env : AudioEnv) (audio_bytes : List Nat) (filename : String),
      env.librosa_available = false ∨ env.transformers_available = false ∨
        env.audio_model = none →
      analyze_audio env audio_bytes filename =
        .ok (_analyze_audio_fallback env.rng audio_bytes filename) ∧
      ((_analyze_audio_fallback env.rng audio_bytes filename).bucket = "Low" ∨
       (_analyze_audio_fallback env.rng audio_bytes filename).bucket =
         "Moderate" ∨
       (_analyze_audio_fallback env.rng audio_bytes filename).bucket =
         "High")) := by
  constructor
  · intro text
    exact ⟨rfl, textFallbackBucket_cases _⟩
  · intro env bytes fn h
    exact ⟨analyze_audio_unavailable env bytes fn h,
      audioFallbackBucket_cases _⟩

theorem claim_C6_model_failure_fallback_witness :
    (demoAudioEnv.librosa_available = false ∨
      demoAudioEnv.transformers_available = false ∨
      demoAudioEnv.audio_model = none) ∧
    (analyze_audio demoAudioEnv [] "voice.webm" =
      .ok (_analyze_audio_fallback demoAudioEnv.rng [] "voice.webm") ∧
    ((_analyze_audio_fallback demoAudioEnv.rng [] "voice.webm").bucket =
       "Low" ∨
     (_analyze_audio_fallback demoAudioEnv.rng [] "voice.webm").bucket =
       "Moderate" ∨
     (_analyze_audio_fallback demoAudioEnv.rng [] "voice.webm").bucket =
       "High")) :=
  ⟨Or.inl rfl,
    claim_C6_model_failure_fallback.2 demoAudioEnv [] "voice.webm" (Or.inl rfl)⟩

/-- Claim C7: for every storage state, `purge_all_data` returns exactly
the number of entries stored across all modalities before the call
(`get_stats`'s `total_entries`), and afterwards every modality list is
empty and `get_stats` reports `total_entries = 0`. -/
theorem claim_C7_purge_deletes_all (st : Storage) :
    (purge_all_data st).1 = (get_stats st).total_entries ∧
    (∀ p ∈ (purge_all_data st).2, p.2 = ([] : List StoredEntry)) ∧
    (get_stats (purge_all_data st).2).total_entries = 0 := by
  induction st with
  | nil => simp [purge_all_data, get_stats]
  | cons hd tl ih =>
    obtain ⟨ih1, ih2, ih3⟩ := ih
    refine ⟨?_, ?_, ?_⟩
    · simp only [purge_all_data, get_stats, List.map_cons, List.sum_cons] at ih1 ⊢
      omega
    · intro p hp
      simp only [purge_all_data, List.mem_cons] at hp
      rcases hp with h | h
      · rw [h]
      · exact ih2 p h
    · simp only [purge_all_data, get_stats, List.map_cons, List.sum_cons,
        List.length_nil] at ih3 ⊢
      omega

/-- Claim C5: username and email uniqueness at user creation —
`create_user` returns `None` and leaves the collection unchanged when
any existing user matches the username or email; otherwise it inserts
exactly one new user and returns it; and `/auth/signup` responds 400
(leaving the collection unchanged) in the duplicate case. -/
theorem claim_C5_user_uniqueness (hashPw : String → String)
    (mkToken : String → String) (coll : Users)
    (username email password : String) (now : Nat) :
    ((∃ u ∈ coll, u.username = username ∨ u.email = email) →
      create_user hashPw coll username email password now = (none, coll) ∧
      ∃ detail, signup hashPw mkToken coll username email password now =
        (.error 400 detail, coll)) ∧
    ((∀ u ∈ coll, u.username ≠ username ∧ u.email ≠ email) →
      create_user hashPw coll username email password now =
        (some ⟨username, email, hashPw password, now⟩,
         coll ++ [⟨username, email, hashPw password, now⟩])) := by
  constructor
  · rintro ⟨u, hu, hdup⟩
    have hfind : (coll.find? (userDupMatch username email)).isSome := by
      rw [List.find?_isSome]
      refine ⟨u, hu, ?_⟩
      simp only [userDupMatch, Bool.or_eq_true, beq_iff_eq]
      exact hdup
    obtain ⟨v, hv⟩ := Option.isSome_iff_exists.mp hfind
    refine ⟨?_, ?_⟩
    · simp [create_user, hv]
    · unfold signup
      split_ifs with h1 h2 h3
      · exact ⟨_, rfl⟩
      · exact ⟨_, rfl⟩
      · exact ⟨_, rfl⟩
      · simp [create_user, hv]
  · intro h
    have hfind : coll.find? (userDupMatch username email) = none := by
      rw [List.find?_eq_none]
      intro u hu
      simp only [userDupMatch, Bool.or_eq_true, beq_iff_eq, not_or]
      exact ⟨(h u hu).1, (h u hu).2⟩
    simp [create_user, hfind]

theorem claim_C5_user_uniqueness_witness :
    (∃ u ∈ [(⟨"bob", "bob@example.com", "h0", 0⟩ : UserDoc)],
      u.username = "bob" ∨ u.email = "new@example.com") ∧
    (create_user (fun p => "hash-" ++ p) [⟨"bob", "bob@example.com", "h0", 0⟩]
        "bob" "new@example.com" "secret123" 1 =
      (none, [⟨"bob", "bob@example.com", "h0", 0⟩]) ∧
      ∃ detail, signup (fun p => "hash-" ++ p) (fun u => "token-" ++ u)
        [⟨"bob", "bob@example.com", "h0", 0⟩] "bob" "new@example.com"
        "secret123" 1 =
        (.error 400 detail, [⟨"bob", "bob@example.com", "h0", 0⟩])) :=
  ⟨by decide, (claim_C5_user_uniqueness _ _ _ _ _ _ _).1 (by decide)⟩


/-! ## Score-range lemmas and claim C3 -/

theorem round3_nonneg (q : ℚ) (h : 0 ≤ q) : 0 ≤ round3 q := by
  unfold round3
  apply div_nonneg _ (by norm_num)
  have : (0 : ℤ) ≤ round (q * 1000) := by
    rw [round_eq, Int.le_floor]
    push_cast
    linarith
  exact_mod_cast this

theorem round3_le_one (q : ℚ) (h : q ≤ 1) : round3 q ≤ 1 := by
  unfold round3
  rw [div_le_one (by norm_num : (0:ℚ) < 1000)]
  have : round (q * 1000) ≤ 1000 := by
    rw [round_eq, Int.floor_le_iff]
    push_cast
    linarith
  exact_mod_cast this

theorem clamp01_mem (x : ℚ) : 0 ≤ min 1 (max 0 x) ∧ min 1 (max 0 x) ≤ 1 :=
  ⟨le_min (by norm_num) (le_max_left 0 x), min_le_left 1 _⟩

theorem average_scores_bounds (l : List Analysis)
    (h : ∀ x ∈ l, 0 ≤ x.score.getD (5/10) ∧ x.score.getD (5/10) ≤ 1) :
    ∀ q, _average_scores l = some q → 0 ≤ q ∧ q ≤ 1 := by
  intro q hq
  unfold _average_scores at hq
  split_ifs at hq with he
  obtain rfl : (l.map (fun a => a.score.getD (5/10))).sum / l.length = q :=
    Option.some_injective _ hq
  have hlen : 0 < (l.length : ℚ) := by
    have hne : l ≠ [] := by simpa [List.isEmpty_iff] using he
    have := List.length_pos.mpr hne
    exact_mod_cast this
  have hsum0 : 0 ≤ (l.map (fun a => a.score.getD (5/10))).sum := by
    apply List.sum_nonneg
    intro x hx
    obtain ⟨a, ha, rfl⟩ := List.mem_map.mp hx
    exact (h a ha).1
  have hsum1 : (l.map (fun a => a.score.getD (5/10))).sum ≤ (l.length : ℚ) := by
    have h2 := List.sum_le_card_nsmul (l.map (fun a => a.score.getD (5/10))) 1 ?_
    · simpa [List.length_map, nsmul_eq_mul] using h2
    · intro x hx
      obtain ⟨a, ha, rfl⟩ := List.mem_map.mp hx
      exact (h a ha).2
  exact ⟨div_nonneg hsum0 hlen.le, by rw [div_le_one hlen]; exact hsum1⟩

theorem convex3_bounds (t a i wt wa wi : ℚ)
    (ht : 0 ≤ t ∧ t ≤ 1) (ha : 0 ≤ a ∧ a ≤ 1) (hi : 0 ≤ i ∧ i ≤ 1)
    (hwt : 0 ≤ wt) (hwa : 0 ≤ wa) (hwi : 0 ≤ wi)
    (hpos : 0 < wt + wa + wi) :
    0 ≤ t * (wt / (wt + wa + wi)) + a * (wa / (wt + wa + wi)) +
      i * (wi / (wt + wa + wi)) ∧
    t * (wt / (wt + wa + wi)) + a * (wa / (wt + wa + wi)) +
      i * (wi / (wt + wa + wi)) ≤ 1 := by
  constructor
  · have h1 := mul_nonneg ht.1 (div_nonneg hwt hpos.le)
    have h2 := mul_nonneg ha.1 (div_nonneg hwa hpos.le)
    have h3 := mul_nonneg hi.1 (div_nonneg hwi hpos.le)
    linarith
  · rw [← mul_div_assoc, ← mul_div_assoc, ← mul_div_assoc,
      div_add_div_same, div_add_div_same, div_le_one hpos]
    have h1 : t * wt ≤ wt := by nlinarith
    have h2 : a * wa ≤ wa := by nlinarith
    have h3 : i * wi ≤ wi := by nlinarith
    linarith

theorem fusedRaw_bounds (ts as2 is2 : Option ℚ) (w : Weights)
    (hwt : 0 ≤ w.text) (hwa : 0 ≤ w.audio) (hwi : 0 ≤ w.image)
    (hts : ∀ q, ts = some q → 0 ≤ q ∧ q ≤ 1)
    (has : ∀ q, as2 = some q → 0 ≤ q ∧ q ≤ 1)
    (his : ∀ q, is2 = some q → 0 ≤ q ∧ q ≤ 1)
    (hpos : 0 < activeTotal ts as2 is2 w) :
    0 ≤ fusedRaw ts as2 is2 w ∧ fusedRaw ts as2 is2 w ≤ 1 := by
  rcases ts with _ | t <;> rcases as2 with _ | a <;> rcases is2 with _ | i <;>
    simp only [fusedRaw, activeTotal, Option.isSome_none, Option.isSome_some,
      Bool.false_eq_true, if_false, if_true] at hpos ⊢
  · linarith
  · simpa using convex3_bounds 0 0 i 0 0 w.image
      ⟨le_refl 0, zero_le_one⟩ ⟨le_refl 0, zero_le_one⟩ (his i rfl)
      (le_refl 0) (le_refl 0) hwi (by simpa using hpos)
  · simpa using convex3_bounds 0 a 0 0 w.audio 0
      ⟨le_refl 0, zero_le_one⟩ (has a rfl) ⟨le_refl 0, zero_le_one⟩
      (le_refl 0) hwa (le_refl 0) (by simpa using hpos)
  · simpa using convex3_bounds 0 a i 0 w.audio w.image
      ⟨le_refl 0, zero_le_one⟩ (has a rfl) (his i rfl)
      (le_refl 0) hwa hwi (by simpa using hpos)
  · simpa using convex3_bounds t 0 0 w.text 0 0
      (hts t rfl) ⟨le_refl 0, zero_le_one⟩ ⟨le_refl 0, zero_le_one⟩
      hwt (le_refl 0) (le_refl 0) (by simpa using hpos)
  · simpa using convex3_bounds t 0 i w.text 0 w.image
      (hts t rfl) ⟨le_refl 0, zero_le_one⟩ (his i rfl)
      hwt (le_refl 0) hwi (by simpa using hpos)
  · simpa using convex3_bounds t a 0 w.text w.audio 0
      (hts t rfl) (has a rfl) ⟨le_refl 0, zero_le_one⟩
      hwt hwa (le_refl 0) (by simpa using hpos)
  · exact convex3_bounds t a i w.text w.audio w.image
      (hts t rfl) (has a rfl) (his i rfl) hwt hwa hwi hpos

theorem score_if_eq (l : List Analysis) :
    (if ¬l.isEmpty then _average_scores l else none) = _average_scores l := by
  split_ifs with h
  · unfold _average_scores
    rw [if_pos h]
  · rfl

theorem aggregate_final_score_cases (t a i : List Analysis)
    (w : Option Weights) :
    aggregate_daily_scores t a i w = _no_data_response ∨
    ((aggregate_daily_scores t a i w).final_score =
      round3 (fusedRaw (_average_scores t) (_average_scores a)
        (_average_scores i) (w.getD DEFAULT_WEIGHTS)) ∧
     0 < activeTotal (_average_scores t) (_average_scores a)
        (_average_scores i) (w.getD DEFAULT_WEIGHTS)) := by
  simp only [aggregate_daily_scores, score_if_eq]
  split
  · exact Or.inr ⟨rfl, by assumption⟩
  · exact Or.inl rfl

theorem keyword_fallback_score_bounds (text : String) :
    0 ≤ (_analyze_text_keyword_fallback text).score ∧
    (_analyze_text_keyword_fallback text).score ≤ 1 := by
  unfold _analyze_text_keyword_fallback
  exact ⟨round3_nonneg _ (clamp01_mem _).1, round3_le_one _ (clamp01_mem _).2⟩

theorem analyze_text_score_bounds (o : ModelOutcome) (text : String) :
    0 ≤ (analyze_text o text).score ∧ (analyze_text o text).score ≤ 1 := by
  cases o with
  | fallback => exact keyword_fallback_score_bounds text
  | err => exact keyword_fallback_score_bounds text
  | ok label confidence =>
    unfold analyze_text
    exact ⟨round3_nonneg _ (clamp01_mem _).1, round3_le_one _ (clamp01_mem _).2⟩

theorem claim_C3_scores_in_unit_interval :
    (∀ (t a i : List Analysis) (wArg : Option Weights),
      0 ≤ (wArg.getD DEFAULT_WEIGHTS).text →
      0 ≤ (wArg.getD DEFAULT_WEIGHTS).audio →
      0 ≤ (wArg.getD DEFAULT_WEIGHTS).image →
      (∀ x ∈ t ++ a ++ i, 0 ≤ x.score.getD (5/10) ∧ x.score.getD (5/10) ≤ 1) →
      0 ≤ (aggregate_daily_scores t a i wArg).final_score ∧
      (aggregate_daily_scores t a i wArg).final_score ≤ 1) ∧
    (∀ (outcome : ModelOutcome) (text : String),
      0 ≤ (analyze_text outcome text).score ∧
      (analyze_text outcome text).score ≤ 1) := by
  constructor
  · intro t a i wArg hwt hwa hwi hsc
    rcases aggregate_final_score_cases t a i wArg with h | ⟨hfs, hpos⟩
    · rw [h]
      constructor <;> norm_num [_no_data_response]
    · rw [hfs]
      have hb := fusedRaw_bounds (_average_scores t) (_average_scores a)
        (_average_scores i) (wArg.getD DEFAULT_WEIGHTS) hwt hwa hwi
        (average_scores_bounds t (fun x hx =>
          hsc x (List.mem_append_left _ (List.mem_append_left _ hx))))
        (average_scores_bounds a (fun x hx =>
          hsc x (List.mem_append_left _ (List.mem_append_right _ hx))))
        (average_scores_bounds i (fun x hx =>
          hsc x (List.mem_append_right _ hx)))
        hpos
      exact ⟨round3_nonneg _ hb.1, round3_le_one _ hb.2⟩
  · exact analyze_text_score_bounds

theorem claim_C3_scores_in_unit_interval_witness :
    ((∀ x ∈ ([⟨some (9/10), [], none, []⟩] : List Analysis) ++ [] ++ [],
       0 ≤ x.score.getD (5/10) ∧ x.score.getD (5/10) ≤ 1)) ∧
    (0 ≤ (aggregate_daily_scores [⟨some (9/10), [], none, []⟩] [] [] none).final_score ∧
     (aggregate_daily_scores [⟨some (9/10), [], none, []⟩] [] [] none).final_score ≤ 1) := by
  have hx : ∀ x ∈ ([⟨some (9/10), [], none, []⟩] : List Analysis) ++ [] ++ [],
      0 ≤ x.score.getD (5/10) ∧ x.score.getD (5/10) ≤ 1 := by
    intro x hx
    simp only [List.append_nil, List.mem_singleton] at hx
    subst hx
    norm_num
  exact ⟨hx, claim_C3_scores_in_unit_interval.1
    [⟨some (9/10), [], none, []⟩] [] [] none
    (by norm_num [DEFAULT_WEIGHTS]) (by norm_num [DEFAULT_WEIGHTS])
    (by norm_num [DEFAULT_WEIGHTS]) hx⟩


/-! ## Session uniqueness (claim C4) -/

theorem sessionsFindOneAndUpdate_cons (uid date : String)
    (f : SessionDoc → SessionDoc) (d : SessionDoc) (rest : Sessions) :
    sessionsFindOneAndUpdate uid date f (d :: rest) =
    if sessionKeyMatch uid date d then (some (f d), f d :: rest)
    else ((sessionsFindOneAndUpdate uid date f rest).1,
          d :: (sessionsFindOneAndUpdate uid date f rest).2) := by
  conv_lhs => rw [sessionsFindOneAndUpdate]

theorem findOneAndUpdate_filter_length (uid date : String)
    (f : SessionDoc → SessionDoc)
    (hf : ∀ d, (f d).user_id = d.user_id ∧ (f d).date = d.date)
    (coll : Sessions) (u2 d2 : String) :
    ((sessionsFindOneAndUpdate uid date f coll).2.filter
      (sessionKeyMatch u2 d2)).length =
    ((coll.filter (sessionKeyMatch u2 d2)).length) := by
  induction coll with
  | nil => rfl
  | cons d rest ih =>
    rw [sessionsFindOneAndUpdate_cons]
    split_ifs with hd
    · simp only [List.filter_cons]
      have hkey : sessionKeyMatch u2 d2 (f d) = sessionKeyMatch u2 d2 d := by
        unfold sessionKeyMatch
        rw [(hf d).1, (hf d).2]
      rw [hkey]
      split <;> simp
    · simp only [List.filter_cons]
      split <;> simp [ih]

theorem create_session_preserves (coll : Sessions)
    (uid un date : String) (now : Nat)
    (h : OneSessionPerUserDate coll) :
    OneSessionPerUserDate (create_session coll uid un date now).2 := by
  unfold create_session
  cases hf : sessionsFindOne coll uid date with
  | some s => exact h
  | none =>
    intro u2 d2
    rw [List.filter_append]
    by_cases hk : sessionKeyMatch u2 d2
        (⟨uid, un, date, [], [], [], [], now, now⟩ : SessionDoc)
    · have hu : uid = u2 ∧ date = d2 := by
        unfold sessionKeyMatch at hk
        simp only [Bool.and_eq_true, beq_iff_eq] at hk
        exact hk
      have hnone : coll.filter (sessionKeyMatch u2 d2) = [] := by
        rw [List.filter_eq_nil_iff]
        intro d hd
        have hnot := List.find?_eq_none.mp hf d hd
        rw [← hu.1, ← hu.2]
        exact hnot
      rw [hnone]
      simp [List.filter_cons, hk]
    · have hone : List.filter (sessionKeyMatch u2 d2)
          [(⟨uid, un, date, [], [], [], [], now, now⟩ : SessionDoc)] = [] := by
        simp [List.filter_cons, hk]
      rw [hone]
      simpa using h u2 d2

/-- Claim C4: in every collection state reachable from the empty
sessions collection by `create_session` and the `update_session_*`
operations (`get_session` is read-only), there is at most one session
document per `(user_id, date)` pair; and `create_session` on an
existing `(user_id, date)` returns that session and inserts nothing. -/
theorem claim_C4_one_session_per_user_date (coll : Sessions)
    (h : SessionsReachable coll) :
    OneSessionPerUserDate coll ∧
    (∀ (uid un date : String) (now : Nat) (s : SessionDoc),
      sessionsFindOne coll uid date = some s →
      create_session coll uid un date now = (s, coll)) := by
  constructor
  · induction h with
    | empty => intro u2 d2; simp
    | create coll uid un date now _ ih =>
      exact create_session_preserves coll uid un date now ih
    | updateText coll uid date p now _ ih =>
      intro u2 d2
      unfold update_session_text
      rw [findOneAndUpdate_filter_length uid date
        (fun d => { d with text_analysis := p, updated_at := now })
        (fun d => ⟨rfl, rfl⟩) coll u2 d2]
      exact ih u2 d2
    | updateAudio coll uid date p now _ ih =>
      intro u2 d2
      unfold update_session_audio
      rw [findOneAndUpdate_filter_length uid date
        (fun d => { d with audio_analysis := p, updated_at := now })
        (fun d => ⟨rfl, rfl⟩) coll u2 d2]
      exact ih u2 d2
    | updateImage coll uid date p now _ ih =>
      intro u2 d2
      unfold update_session_image
      rw [findOneAndUpdate_filter_length uid date
        (fun d => { d with image_analysis := p, updated_at := now })
        (fun d => ⟨rfl, rfl⟩) coll u2 d2]
      exact ih u2 d2
    | updateFusion coll uid date p now _ ih =>
      intro u2 d2
      unfold update_session_fusion
      rw [findOneAndUpdate_filter_length uid date
        (fun d => { d with fusion_result := p, updated_at := now })
        (fun d => ⟨rfl, rfl⟩) coll u2 d2]
      exact ih u2 d2
  · intro uid un date now s hf
    unfold create_session
    rw [hf]

theorem claim_C4_one_session_per_user_date_witness :
    SessionsReachable demoSessions3 ∧
    (OneSessionPerUserDate demoSessions3 ∧
     (∀ (uid un date : String) (now : Nat) (s : SessionDoc),
       sessionsFindOne demoSessions3 uid date = some s →
       create_session demoSessions3 uid un date now = (s, demoSessions3))) :=
  have hr : SessionsReachable demoSessions3 :=
    SessionsReachable.updateText demoSessions2 "u1" "2024-01-01"
      [("score", "0.41")] 6
      (SessionsReachable.create demoSessions1 "u1" "alice" "2024-01-01" 5
        (SessionsReachable.create [] "u1" "alice" "2024-01-01" 0
          SessionsReachable.empty))
  ⟨hr, claim_C4_one_session_per_user_date demoSessions3 hr⟩


/-! ## Trend query (claim C8) -/

theorem noTrendData_scoreBucket (st : Storage) (date_str : String)
    (h : noTrendData st date_str) :
    trendScoreBucket st date_str = (none, "No Data") := by
  unfold trendScoreBucket
  rw [h.1, h.2]
  rfl

theorem trendLoop_spec (st : Storage) (n : Nat) : ∀ cur : ℤ,
    (trendLoop st cur n).1.length = n ∧
    (trendLoop st cur n).2.1.length = n ∧
    (trendLoop st cur n).2.2.length = n ∧
    (trendLoop st cur n).1 =
      (List.range n).map (fun i : Nat => formatDate (cur + (i : ℤ))) ∧
    (∀ i : Nat, i < n →
      (trendLoop st cur n).2.1[i]? =
        some (trendScoreBucket st (formatDate (cur + (i : ℤ)))).1 ∧
      (trendLoop st cur n).2.2[i]? =
        some (trendScoreBucket st (formatDate (cur + (i : ℤ)))).2) := by
  induction n with
  | zero =>
    intro cur
    refine ⟨rfl, rfl, rfl, rfl, ?_⟩
    intro i hi
    omega
  | succ n ih =>
    intro cur
    obtain ⟨ih1, ih2, ih3, ih4, ih5⟩ := ih (cur + 1)
    refine ⟨?_, ?_, ?_, ?_, ?_⟩
    · simp only [trendLoop, List.length_cons, ih1]
    · simp only [trendLoop, List.length_cons, ih2]
    · simp only [trendLoop, List.length_cons, ih3]
    · simp only [trendLoop]
      rw [List.range_succ_eq_map, List.map_cons, List.map_map, ih4]
      congr 1
      · norm_num
      · apply List.map_congr_left
        intro i _
        simp only [Function.comp_apply]
        congr 1
        push_cast
        ring
    · intro i hi
      cases i with
      | zero =>
        simp only [trendLoop, List.getElem?_cons_zero]
        norm_num
      | succ j =>
        obtain ⟨hs, hb⟩ := ih5 j (by omega)
        simp only [trendLoop, List.getElem?_cons_succ]
        have harg : cur + 1 + (j : ℤ) = cur + (((j + 1 : Nat) : ℤ)) := by
          push_cast
          ring
        rw [harg] at hs hb
        exact ⟨hs, hb⟩



/-- Claim C8: for every storage state, every `today` and every
`days ≥ 1`, `get_trend_data` returns three lists of length exactly
`days`; the dates are the `days` consecutive calendar days ending at
today, formatted `YYYY-MM-DD`, in ascending day order; and for any day
with no stored data of any modality the score is `None` and the bucket
is `"No Data"`. -/
theorem claim_C8_trend_shape (st : Storage) (today days : ℤ) (h : 1 ≤ days) :
    (get_trend_data st today days).dates.length = days.toNat ∧
    (get_trend_data st today days).scores.length = days.toNat ∧
    (get_trend_data st today days).buckets.length = days.toNat ∧
    (get_trend_data st today days).dates =
      (List.range days.toNat).map
        (fun i : Nat => formatDate (today - (days - 1) + (i : ℤ))) ∧
    (∀ i : Nat, i < days.toNat →
      noTrendData st (formatDate (today - (days - 1) + (i : ℤ))) →
      (get_trend_data st today days).scores[i]? = some none ∧
      (get_trend_data st today days).buckets[i]? = some "No Data") := by
  have hn : (today - (today - (days - 1)) + 1).toNat = days.toNat := by omega
  obtain ⟨h1, h2, h3, h4, h5⟩ := trendLoop_spec st days.toNat (today - (days - 1))
  simp only [get_trend_data]
  rw [hn]
  refine ⟨h1, h2, h3, h4, ?_⟩
  intro i hi hnd
  obtain ⟨hs, hb⟩ := h5 i hi
  rw [noTrendData_scoreBucket st _ hnd] at hs hb
  exact ⟨hs, hb⟩

theorem claim_C8_trend_shape_witness :
    (1 : ℤ) ≤ 2 ∧
    ((get_trend_data [] 0 2).dates.length = (2 : ℤ).toNat ∧
     (get_trend_data [] 0 2).scores.length = (2 : ℤ).toNat ∧
     (get_trend_data [] 0 2).buckets.length = (2 : ℤ).toNat ∧
     (get_trend_data [] 0 2).dates =
       (List.range (2 : ℤ).toNat).map
         (fun i : Nat => formatDate (0 - (2 - 1) + (i : ℤ))) ∧
     (∀ i : Nat, i < (2 : ℤ).toNat →
       noTrendData [] (formatDate (0 - (2 - 1) + (i : ℤ))) →
       (get_trend_data [] 0 2).scores[i]? = some none ∧
       (get_trend_data [] 0 2).buckets[i]? = some "No Data")) :=
  ⟨by norm_num, claim_C8_trend_shape [] 0 2 (by norm_num)⟩

end MindEase
